import Mathlib

/-!
Verification of the event-multiplexing core of `exonum` (`src/events/mod.rs`):
the `Event` union, the reversed ordering on `TimeoutRequest`, and the
`EventsAggregator` stream combinator.

The Rust code is generic over three `futures 0.1` streams `S1, S2, S3`.  A
stream is embedded as a state type `σ` together with a poll function
`σ → Except ε (Async (Option α)) × σ`: Rust's `Poll<Option<Item>, Error>` is
`Result<Async<Option<Item>>, Error>`, and polling through `&mut self` is
explicit state passing.  The item types `NodeTimeout`, `NetworkEvent` and
`ExternalMessage` live outside this file's source (in `node::` and
`network::`), so the aggregator and `Event` are parametric over them, exactly
as the Rust `impl` is parametric over the streams carrying them.
-/

/-- Rust futures 0.1 `Async<T>`: `Ready(T)` or `NotReady`. -/
inductive Async (α : Type) where
  | Ready (value : α)
  | NotReady
deriving DecidableEq, Repr

/-- A futures 0.1 `Stream` with state type `σ`, item type `α` and error type
`ε`: `poll` consumes a state and returns Rust's `Poll<Option<α>, ε>`
(`Ok(Ready(Some item))` an item, `Ok(Ready(None))` exhaustion,
`Ok(NotReady)` nothing ready, `Err e` an error) together with the mutated
state. -/
structure StreamModel (σ α ε : Type) where
  poll : σ → Except ε (Async (Option α)) × σ

/-- The `Event` enum of `events/mod.rs`: `Network(NetworkEvent)`,
`Timeout(NodeTimeout)`, `Api(ExternalMessage)`, parametric over the three
externally defined payload types. -/
inductive Event (N T A : Type) where
  | Network (value : N)
  | Timeout (value : T)
  | Api (value : A)
deriving DecidableEq, Repr

/-- The `EventsAggregator` struct: the `done` flag plus exclusive ownership of
the three child stream states. -/
structure EventsAggregator (σ1 σ2 σ3 : Type) where
  done : Bool
  timeout : σ1
  network : σ2
  api : σ3
deriving DecidableEq, Repr

/-- `EventsAggregator::new`: all three sources, `done = false`. -/
def EventsAggregator.new {σ1 σ2 σ3 : Type} (timeout : σ1) (network : σ2) (api : σ3) :
    EventsAggregator σ1 σ2 σ3 :=
  { done := false, timeout := timeout, network := network, api := api }

/-- `EventsAggregator::poll` of `events/mod.rs` lines 118-161, translated
clause by clause: if `done`, return `Ok(Ready(None))`; otherwise probe
`timeout`, then `network`, then `api`; an item returns the wrapped `Event`
at once, `Ready(None)` sets `done` and returns `Ok(Ready(None))`, an error
propagates via `?`, and `NotReady` falls through; if all three fall through,
return `Ok(NotReady)`.  The `?` operator and each early `return` keep
whatever state mutation the probed child polls already performed. -/
def EventsAggregator.poll {σ1 σ2 σ3 T N A ε : Type}
    (S1 : StreamModel σ1 T ε) (S2 : StreamModel σ2 N ε) (S3 : StreamModel σ3 A ε)
    (self : EventsAggregator σ1 σ2 σ3) :
    Except ε (Async (Option (Event N T A))) × EventsAggregator σ1 σ2 σ3 :=
  if self.done then
    (Except.ok (Async.Ready none), self)
  else
    match S1.poll self.timeout with
    | (Except.error e, t') => (Except.error e, { self with timeout := t' })
    | (Except.ok (Async.Ready (some item)), t') =>
      (Except.ok (Async.Ready (some (Event.Timeout item))), { self with timeout := t' })
    | (Except.ok (Async.Ready none), t') =>
      (Except.ok (Async.Ready none), { self with timeout := t', done := true })
    | (Except.ok Async.NotReady, t') =>
      match S2.poll self.network with
      | (Except.error e, n') => (Except.error e, { self with timeout := t', network := n' })
      | (Except.ok (Async.Ready (some item)), n') =>
        (Except.ok (Async.Ready (some (Event.Network item))),
          { self with timeout := t', network := n' })
      | (Except.ok (Async.Ready none), n') =>
        (Except.ok (Async.Ready none), { self with timeout := t', network := n', done := true })
      | (Except.ok Async.NotReady, n') =>
        match S3.poll self.api with
        | (Except.error e, a') =>
          (Except.error e, { self with timeout := t', network := n', api := a' })
        | (Except.ok (Async.Ready (some item)), a') =>
          (Except.ok (Async.Ready (some (Event.Api item))),
            { self with timeout := t', network := n', api := a' })
        | (Except.ok (Async.Ready none), a') =>
          (Except.ok (Async.Ready none),
            { self with timeout := t', network := n', api := a', done := true })
        | (Except.ok Async.NotReady, a') =>
          (Except.ok Async.NotReady, { self with timeout := t', network := n', api := a' })

/-- The aggregator state after `n` repeated `poll` calls. -/
def EventsAggregator.pollSteps {σ1 σ2 σ3 T N A ε : Type}
    (S1 : StreamModel σ1 T ε) (S2 : StreamModel σ2 N ε) (S3 : StreamModel σ3 A ε) :
    Nat → EventsAggregator σ1 σ2 σ3 → EventsAggregator σ1 σ2 σ3
  | 0, a => a
  | Nat.succ n, a =>
    EventsAggregator.pollSteps S1 S2 S3 n (EventsAggregator.poll S1 S2 S3 a).2

/-- The events a single poll outcome delivers: one for `Ok(Ready(Some e))`,
none otherwise. -/
def emittedEvents {E ε : Type} : Except ε (Async (Option E)) → List E
  | Except.error _ => []
  | Except.ok Async.NotReady => []
  | Except.ok (Async.Ready none) => []
  | Except.ok (Async.Ready (some e)) => [e]

/-- A scripted stream for concrete runs: the state is the list of poll
outcomes still to deliver; an exhausted script reports `NotReady`. -/
def scriptStream (α ε : Type) : StreamModel (List (Except ε (Async (Option α)))) α ε :=
  ⟨fun s =>
    match s with
    | [] => (Except.ok Async.NotReady, [])
    | o :: rest => (o, rest)⟩

/-- A stream that is never ready but counts how often it was probed. -/
def tickingStream (α ε : Type) : StreamModel Nat α ε :=
  ⟨fun k => (Except.ok Async.NotReady, k + 1)⟩

deriving instance DecidableEq for Except

/-- C2: the `done` flag is a one-way latch.  If `done = true`, `poll` returns
`Ok(Ready(None))` and the state, flag included, is exactly the input state
(no source is consulted: the result does not depend on `S1`, `S2`, `S3`), and
every iterate of `poll` leaves the state fixed with each step again returning
`Ok(Ready(None))`. -/
theorem EventsAggregator.poll_done_latch {σ1 σ2 σ3 T N A ε : Type}
    (S1 : StreamModel σ1 T ε) (S2 : StreamModel σ2 N ε) (S3 : StreamModel σ3 A ε)
    (a : EventsAggregator σ1 σ2 σ3) (h : a.done = true) :
    EventsAggregator.poll S1 S2 S3 a = (Except.ok (Async.Ready none), a)
    ∧ ∀ n, EventsAggregator.pollSteps S1 S2 S3 n a = a
      ∧ (EventsAggregator.poll S1 S2 S3 (EventsAggregator.pollSteps S1 S2 S3 n a)).1
          = Except.ok (Async.Ready none) := by
  have hp : EventsAggregator.poll S1 S2 S3 a = (Except.ok (Async.Ready none), a) := by
    simp [EventsAggregator.poll, h]
  refine ⟨hp, ?_⟩
  intro n
  induction n with
  | zero => exact ⟨rfl, by simp [EventsAggregator.pollSteps, hp]⟩
  | succ n ih =>
    have hstep : EventsAggregator.pollSteps S1 S2 S3 (Nat.succ n) a
        = EventsAggregator.pollSteps S1 S2 S3 n (EventsAggregator.poll S1 S2 S3 a).2 := rfl
    rw [hstep, hp]
    exact ih

/-- C2 witness: a concrete finished aggregator over scripted sources stays
fixed and keeps answering `Ok(Ready(None))`. -/
theorem EventsAggregator.poll_done_latch_witness :
    EventsAggregator.poll (scriptStream Nat Nat) (scriptStream Nat Nat) (scriptStream Nat Nat)
        ⟨true, [Except.ok (Async.Ready (some 3))], [], []⟩
      = (Except.ok (Async.Ready none), ⟨true, [Except.ok (Async.Ready (some 3))], [], []⟩)
    ∧ EventsAggregator.pollSteps (scriptStream Nat Nat) (scriptStream Nat Nat)
        (scriptStream Nat Nat) 100 ⟨true, [Except.ok (Async.Ready (some 3))], [], []⟩
      = ⟨true, [Except.ok (Async.Ready (some 3))], [], []⟩ :=
  ⟨(EventsAggregator.poll_done_latch (scriptStream Nat Nat) (scriptStream Nat Nat)
      (scriptStream Nat Nat) ⟨true, [Except.ok (Async.Ready (some 3))], [], []⟩ rfl).1,
   ((EventsAggregator.poll_done_latch (scriptStream Nat Nat) (scriptStream Nat Nat)
      (scriptStream Nat Nat) ⟨true, [Except.ok (Async.Ready (some 3))], [], []⟩ rfl).2 100).1⟩

/-- C1: first exhaustion wins.  On an unfinished aggregator, whichever of the
three sources is the first probed to report `Ready(None)` makes `poll` set
`done := true` and return `Ok(Ready(None))`; the lower-priority source states
are left untouched whatever items they still hold. -/
theorem EventsAggregator.poll_first_exhaustion_ends {σ1 σ2 σ3 T N A ε : Type}
    (S1 : StreamModel σ1 T ε) (S2 : StreamModel σ2 N ε) (S3 : StreamModel σ3 A ε)
    (a : EventsAggregator σ1 σ2 σ3) (h : a.done = false) :
    (∀ t', S1.poll a.timeout = (Except.ok (Async.Ready none), t') →
      EventsAggregator.poll S1 S2 S3 a
        = (Except.ok (Async.Ready none), { a with timeout := t', done := true }))
    ∧ (∀ t' n', S1.poll a.timeout = (Except.ok Async.NotReady, t') →
        S2.poll a.network = (Except.ok (Async.Ready none), n') →
        EventsAggregator.poll S1 S2 S3 a
          = (Except.ok (Async.Ready none), { a with timeout := t', network := n', done := true }))
    ∧ (∀ t' n' p', S1.poll a.timeout = (Except.ok Async.NotReady, t') →
        S2.poll a.network = (Except.ok Async.NotReady, n') →
        S3.poll a.api = (Except.ok (Async.Ready none), p') →
        EventsAggregator.poll S1 S2 S3 a
          = (Except.ok (Async.Ready none),
             { a with timeout := t', network := n', api := p', done := true })) := by
  refine ⟨fun t' ht => ?_, fun t' n' ht hn => ?_, fun t' n' p' ht hn hp => ?_⟩ <;>
    simp [EventsAggregator.poll, h, ht]
  · simp [hn]
  · simp [hn, hp]

/-- C1 witness: the timeout script exhausts while the network script still
holds a pending item; the combined stream ends at once. -/
theorem EventsAggregator.poll_first_exhaustion_ends_witness :
    EventsAggregator.poll (scriptStream Nat Nat) (scriptStream Nat Nat) (scriptStream Nat Nat)
        ⟨false, [Except.ok (Async.Ready none)], [Except.ok (Async.Ready (some 9))], []⟩
      = (Except.ok (Async.Ready none),
         ⟨true, [], [Except.ok (Async.Ready (some 9))], []⟩) :=
  (EventsAggregator.poll_first_exhaustion_ends (scriptStream Nat Nat) (scriptStream Nat Nat)
      (scriptStream Nat Nat)
      ⟨false, [Except.ok (Async.Ready none)], [Except.ok (Async.Ready (some 9))], []⟩ rfl).1
    [] rfl

/-- C3: strict probe priority.  On an unfinished aggregator: a timeout item
is returned as `Event.Timeout` with the network and api states untouched (the
result does not depend on `S2` or `S3`); with the timeout source not ready, a
network item is returned as `Event.Network` with the api state untouched; with
both not ready, an api item is returned as `Event.Api` and `done` stays
`false`. -/
theorem EventsAggregator.poll_priority_order {σ1 σ2 σ3 T N A ε : Type}
    (S1 : StreamModel σ1 T ε) (S2 : StreamModel σ2 N ε) (S3 : StreamModel σ3 A ε)
    (a : EventsAggregator σ1 σ2 σ3) (h : a.done = false) :
    (∀ x t', S1.poll a.timeout = (Except.ok (Async.Ready (some x)), t') →
      EventsAggregator.poll S1 S2 S3 a
        = (Except.ok (Async.Ready (some (Event.Timeout x))), { a with timeout := t' }))
    ∧ (∀ x t' n', S1.poll a.timeout = (Except.ok Async.NotReady, t') →
        S2.poll a.network = (Except.ok (Async.Ready (some x)), n') →
        EventsAggregator.poll S1 S2 S3 a
          = (Except.ok (Async.Ready (some (Event.Network x))),
             { a with timeout := t', network := n' }))
    ∧ (∀ x t' n' p', S1.poll a.timeout = (Except.ok Async.NotReady, t') →
        S2.poll a.network = (Except.ok Async.NotReady, n') →
        S3.poll a.api = (Except.ok (Async.Ready (some x)), p') →
        EventsAggregator.poll S1 S2 S3 a
          = (Except.ok (Async.Ready (some (Event.Api x))),
             { a with timeout := t', network := n', api := p' })) := by
  refine ⟨fun x t' ht => ?_, fun x t' n' ht hn => ?_, fun x t' n' p' ht hn hp => ?_⟩ <;>
    simp [EventsAggregator.poll, h, ht]
  · simp [hn]
  · simp [hn, hp]

/-- C3 witness: timeout and network simultaneously ready yield the timeout
item and leave the network script unconsumed. -/
theorem EventsAggregator.poll_priority_order_witness :
    EventsAggregator.poll (scriptStream Nat Nat) (scriptStream Nat Nat) (scriptStream Nat Nat)
        ⟨false, [Except.ok (Async.Ready (some 7))], [Except.ok (Async.Ready (some 8))], []⟩
      = (Except.ok (Async.Ready (some (Event.Timeout 7))),
         ⟨false, [], [Except.ok (Async.Ready (some 8))], []⟩) :=
  (EventsAggregator.poll_priority_order (scriptStream Nat Nat) (scriptStream Nat Nat)
      (scriptStream Nat Nat)
      ⟨false, [Except.ok (Async.Ready (some 7))], [Except.ok (Async.Ready (some 8))], []⟩
      rfl).1 7 [] rfl

/-- C6: transparent error relay.  On an unfinished aggregator, the first
probed source that reports an error makes `poll` return exactly that error;
the resulting state keeps `done` at its old value `false`, so an error never
terminates the stream. -/
theorem EventsAggregator.poll_error_propagation {σ1 σ2 σ3 T N A ε : Type}
    (S1 : StreamModel σ1 T ε) (S2 : StreamModel σ2 N ε) (S3 : StreamModel σ3 A ε)
    (a : EventsAggregator σ1 σ2 σ3) (h : a.done = false) :
    (∀ e t', S1.poll a.timeout = (Except.error e, t') →
      EventsAggregator.poll S1 S2 S3 a = (Except.error e, { a with timeout := t' })
        ∧ (EventsAggregator.poll S1 S2 S3 a).2.done = false)
    ∧ (∀ e t' n', S1.poll a.timeout = (Except.ok Async.NotReady, t') →
        S2.poll a.network = (Except.error e, n') →
        EventsAggregator.poll S1 S2 S3 a
            = (Except.error e, { a with timeout := t', network := n' })
          ∧ (EventsAggregator.poll S1 S2 S3 a).2.done = false)
    ∧ (∀ e t' n' p', S1.poll a.timeout = (Except.ok Async.NotReady, t') →
        S2.poll a.network = (Except.ok Async.NotReady, n') →
        S3.poll a.api = (Except.error e, p') →
        EventsAggregator.poll S1 S2 S3 a
            = (Except.error e, { a with timeout := t', network := n', api := p' })
          ∧ (EventsAggregator.poll S1 S2 S3 a).2.done = false) := by
  refine ⟨fun e t' ht => ?_, fun e t' n' ht hn => ?_, fun e t' n' p' ht hn hp => ?_⟩
  · simp [EventsAggregator.poll, h, ht]
  · simp [EventsAggregator.poll, h, ht, hn]
  · simp [EventsAggregator.poll, h, ht, hn, hp]

/-- C6 witness: a network-source error on a concrete unfinished aggregator is
returned verbatim, no event is produced and `done` stays `false`. -/
theorem EventsAggregator.poll_error_propagation_witness :
    EventsAggregator.poll (scriptStream Nat Nat) (scriptStream Nat Nat) (scriptStream Nat Nat)
        ⟨false, [Except.ok Async.NotReady], [Except.error 42], []⟩
      = (Except.error 42, ⟨false, [], [], []⟩) :=
  ((EventsAggregator.poll_error_propagation (scriptStream Nat Nat) (scriptStream Nat Nat)
      (scriptStream Nat Nat)
      ⟨false, [Except.ok Async.NotReady], [Except.error 42], []⟩ rfl).2.1
    42 [] [] rfl rfl).1

/-- C9: at most one event per step, and with all three sources simultaneously
ready the single event comes from the timeout source while the network and
api states — their ready items included — are left untouched for the next
call. -/
theorem EventsAggregator.poll_at_most_one_event {σ1 σ2 σ3 T N A ε : Type}
    (S1 : StreamModel σ1 T ε) (S2 : StreamModel σ2 N ε) (S3 : StreamModel σ3 A ε)
    (a : EventsAggregator σ1 σ2 σ3) :
    (emittedEvents (EventsAggregator.poll S1 S2 S3 a).1).length ≤ 1
    ∧ (∀ x y z t' n' p', a.done = false →
        S1.poll a.timeout = (Except.ok (Async.Ready (some x)), t') →
        S2.poll a.network = (Except.ok (Async.Ready (some y)), n') →
        S3.poll a.api = (Except.ok (Async.Ready (some z)), p') →
        EventsAggregator.poll S1 S2 S3 a
          = (Except.ok (Async.Ready (some (Event.Timeout x))), { a with timeout := t' })) := by
  constructor
  · have hgen : ∀ r : Except ε (Async (Option (Event N T A))),
        (emittedEvents r).length ≤ 1 := by
      intro r
      rcases r with e | v
      · simp [emittedEvents]
      · rcases v with v | _
        · rcases v with _ | e <;> simp [emittedEvents]
        · simp [emittedEvents]
    exact hgen _
  · intro x y z t' n' p' h ht hn hp
    simp [EventsAggregator.poll, h, ht]

/-- C9 witness: all three scripted sources ready at once; only the timeout
item is emitted and the other two items stay queued. -/
theorem EventsAggregator.poll_at_most_one_event_witness :
    EventsAggregator.poll (scriptStream Nat Nat) (scriptStream Nat Nat) (scriptStream Nat Nat)
        ⟨false, [Except.ok (Async.Ready (some 1))], [Except.ok (Async.Ready (some 2))],
          [Except.ok (Async.Ready (some 3))]⟩
      = (Except.ok (Async.Ready (some (Event.Timeout 1))),
         ⟨false, [], [Except.ok (Async.Ready (some 2))], [Except.ok (Async.Ready (some 3))]⟩) :=
  (EventsAggregator.poll_at_most_one_event (scriptStream Nat Nat) (scriptStream Nat Nat)
      (scriptStream Nat Nat)
      ⟨false, [Except.ok (Async.Ready (some 1))], [Except.ok (Async.Ready (some 2))],
        [Except.ok (Async.Ready (some 3))]⟩).2
    1 2 3 [] [] [] rfl rfl rfl rfl

/-- C7 counterexample: with three never-ready child streams that each count
their probes, one `poll` on an unfinished aggregator returns `Ok(NotReady)`
(Pending) yet the aggregator state is not the input state — the child-source
states inside it advanced — refuting the claim that the state is unchanged. -/
theorem EventsAggregator.poll_pending_state_changed :
    (EventsAggregator.poll (tickingStream Nat Nat) (tickingStream Nat Nat)
        (tickingStream Nat Nat) ⟨false, 0, 0, 0⟩).1 = Except.ok Async.NotReady
    ∧ (EventsAggregator.poll (tickingStream Nat Nat) (tickingStream Nat Nat)
        (tickingStream Nat Nat) ⟨false, 0, 0, 0⟩).2
      ≠ (⟨false, 0, 0, 0⟩ : EventsAggregator Nat Nat Nat) := by
  constructor
  · rfl
  · decide

/-- C7 amended: if all three sources report not-ready in one step on an
unfinished aggregator, `poll` returns `Ok(NotReady)` (Pending) and the
`done` flag is unchanged (still `false`); the three child-source states
advance exactly to what their own polls returned. -/
theorem EventsAggregator.poll_all_not_ready_pending {σ1 σ2 σ3 T N A ε : Type}
    (S1 : StreamModel σ1 T ε) (S2 : StreamModel σ2 N ε) (S3 : StreamModel σ3 A ε)
    (a : EventsAggregator σ1 σ2 σ3) (t' : σ1) (n' : σ2) (p' : σ3)
    (h : a.done = false)
    (ht : S1.poll a.timeout = (Except.ok Async.NotReady, t'))
    (hn : S2.poll a.network = (Except.ok Async.NotReady, n'))
    (hp : S3.poll a.api = (Except.ok Async.NotReady, p')) :
    EventsAggregator.poll S1 S2 S3 a
      = (Except.ok Async.NotReady, { a with timeout := t', network := n', api := p' }) := by
  simp [EventsAggregator.poll, h, ht, hn, hp]

/-- C7 witness: three not-ready scripted sources give Pending with `done`
still `false`. -/
theorem EventsAggregator.poll_all_not_ready_pending_witness :
    EventsAggregator.poll (scriptStream Nat Nat) (scriptStream Nat Nat) (scriptStream Nat Nat)
        ⟨false, [Except.ok Async.NotReady], [Except.ok Async.NotReady], [Except.ok Async.NotReady]⟩
      = (Except.ok Async.NotReady, ⟨false, [], [], []⟩) :=
  EventsAggregator.poll_all_not_ready_pending (scriptStream Nat Nat) (scriptStream Nat Nat)
    (scriptStream Nat Nat)
    ⟨false, [Except.ok Async.NotReady], [Except.ok Async.NotReady], [Except.ok Async.NotReady]⟩
    [] [] [] rfl rfl rfl rfl

/-- Rust `impl Into<Event> for NetworkEvent` (`events/mod.rs` lines 56-60). -/
def networkIntoEvent {N T A : Type} (self : N) : Event N T A :=
  Event.Network self

/-- Rust `impl Into<Event> for NodeTimeout` (`events/mod.rs` lines 62-66). -/
def timeoutIntoEvent {N T A : Type} (self : T) : Event N T A :=
  Event.Timeout self

/-- Rust `impl Into<Event> for ExternalMessage` (`events/mod.rs` lines 68-72). -/
def apiIntoEvent {N T A : Type} (self : A) : Event N T A :=
  Event.Api self

/-- The network payload of an event, when it is one. -/
def Event.networkValue {N T A : Type} : Event N T A → Option N
  | Event.Network v => some v
  | Event.Timeout _ => none
  | Event.Api _ => none

/-- The timeout payload of an event, when it is one. -/
def Event.timeoutValue {N T A : Type} : Event N T A → Option T
  | Event.Network _ => none
  | Event.Timeout v => some v
  | Event.Api _ => none

/-- The api payload of an event, when it is one. -/
def Event.apiValue {N T A : Type} : Event N T A → Option A
  | Event.Network _ => none
  | Event.Timeout _ => none
  | Event.Api v => some v

/-- C8: the three `Into<Event>` conversions are total and lossless: each
wraps its argument in exactly its own variant with no rejection or
transformation, each is injective, and the wrapped value is recovered
unchanged by the matching projection. -/
theorem Event.into_total_lossless {N T A : Type} :
    (∀ x : N, networkIntoEvent (T := T) (A := A) x = Event.Network x)
    ∧ (∀ x : T, timeoutIntoEvent (N := N) (A := A) x = Event.Timeout x)
    ∧ (∀ x : A, apiIntoEvent (N := N) (T := T) x = Event.Api x)
    ∧ (∀ x y : N, networkIntoEvent (T := T) (A := A) x = networkIntoEvent y → x = y)
    ∧ (∀ x y : T, timeoutIntoEvent (N := N) (A := A) x = timeoutIntoEvent y → x = y)
    ∧ (∀ x y : A, apiIntoEvent (N := N) (T := T) x = apiIntoEvent y → x = y)
    ∧ (∀ x : N, (networkIntoEvent (T := T) (A := A) x).networkValue = some x)
    ∧ (∀ x : T, (timeoutIntoEvent (N := N) (A := A) x).timeoutValue = some x)
    ∧ (∀ x : A, (apiIntoEvent (N := N) (T := T) x).apiValue = some x) := by
  refine ⟨fun x => rfl, fun x => rfl, fun x => rfl, ?_, ?_, ?_,
    fun x => rfl, fun x => rfl, fun x => rfl⟩ <;>
    intro x y hxy <;> simpa [networkIntoEvent, timeoutIntoEvent, apiIntoEvent] using hxy

/-- C8 witness: the conversions evaluated at concrete values, injectivity
included. -/
theorem Event.into_total_lossless_witness :
    networkIntoEvent 7 = (Event.Network 7 : Event Nat Nat Nat)
    ∧ (timeoutIntoEvent 5 : Event Nat Nat Nat).timeoutValue = some 5
    ∧ (9 : Nat) = 9 :=
  ⟨(Event.into_total_lossless (N := Nat) (T := Nat) (A := Nat)).1 7,
   (Event.into_total_lossless (N := Nat) (T := Nat) (A := Nat)).2.2.2.2.2.2.2.1 5,
   (Event.into_total_lossless (N := Nat) (T := Nat) (A := Nat)).2.2.2.2.2.1 9 9 rfl⟩

/-- Modelled from the spec: `std::time::SystemTime` is external to
`events/mod.rs`; an absolute timestamp with a total order, taken as a natural
number. -/
abbrev SystemTime := Nat

/-- Modelled from the spec: `NodeTimeout` is defined in `node::` (not under
`src/`); an opaque scheduled-action token whose type supplies a total order
(an external contract), taken as a natural number. -/
abbrev NodeTimeout := Nat

/-- The `TimeoutRequest(SystemTime, NodeTimeout)` pair: an absolute deadline
and the scheduled-action token.  Equality is structural on both fields. -/
structure TimeoutRequest where
  deadline : SystemTime
  token : NodeTimeout
deriving DecidableEq, Repr

/-- `Ord for TimeoutRequest` (`events/mod.rs` lines 50-54):
`(&self.0, &self.1).cmp(&(&other.0, &other.1)).reverse()` — the lexicographic
tuple comparison (deadline first, then token), reversed. -/
def TimeoutRequest.cmp (a b : TimeoutRequest) : Ordering :=
  ((compare a.deadline b.deadline).then (compare a.token b.token)).swap

/-- `PartialOrd for TimeoutRequest` (`events/mod.rs` lines 44-48):
`Some(self.cmp(other))`. -/
def TimeoutRequest.partial_cmp (a b : TimeoutRequest) : Option Ordering :=
  some (TimeoutRequest.cmp a b)

/-- Insertion into a largest-first priority structure kept as a list sorted
descending under `TimeoutRequest.cmp`: the new record goes in front of the
first element it compares greater than.  Repeated largest-first extraction is
then reading the list left to right. -/
def pqInsert (r : TimeoutRequest) : List TimeoutRequest → List TimeoutRequest
  | [] => [r]
  | x :: xs =>
    if TimeoutRequest.cmp r x = Ordering.gt then r :: x :: xs else x :: pqInsert r xs

/-- The priority structure holding the given records. -/
def pqBuild (rs : List TimeoutRequest) : List TimeoutRequest :=
  rs.foldl (fun q r => pqInsert r q) []

theorem TimeoutRequest.cmp_of_deadline_lt (a b : TimeoutRequest)
    (h : a.deadline < b.deadline) : TimeoutRequest.cmp a b = Ordering.gt := by
  unfold TimeoutRequest.cmp
  rw [Nat.compare_eq_lt.mpr h]
  rfl

theorem TimeoutRequest.cmp_of_deadline_gt (a b : TimeoutRequest)
    (h : b.deadline < a.deadline) : TimeoutRequest.cmp a b = Ordering.lt := by
  unfold TimeoutRequest.cmp
  rw [Nat.compare_eq_gt.mpr h]
  rfl

theorem TimeoutRequest.cmp_of_deadline_eq (a b : TimeoutRequest)
    (h : a.deadline = b.deadline) :
    TimeoutRequest.cmp a b = (compare a.token b.token).swap := by
  unfold TimeoutRequest.cmp
  rw [h, Nat.compare_eq_eq.mpr rfl]
  rfl

/-- C4: the published comparison reverses the deadline order: for distinct
deadlines the record with the earlier deadline compares as greater, and the
records with deadlines 5, 1, 3 (distinct tokens), inserted into a
largest-first priority structure driven by `TimeoutRequest.cmp`, extract in
deadline order 1, 3, 5. -/
theorem TimeoutRequest.cmp_reversed_deadline :
    (∀ a b : TimeoutRequest, a.deadline < b.deadline →
      TimeoutRequest.cmp a b = Ordering.gt)
    ∧ (pqBuild [⟨5, 10⟩, ⟨1, 11⟩, ⟨3, 12⟩]).map TimeoutRequest.deadline = [1, 3, 5] :=
  ⟨fun a b h => TimeoutRequest.cmp_of_deadline_lt a b h, by decide⟩

/-- C4 witness: the record with deadline 1 compares greater than the record
with deadline 5. -/
theorem TimeoutRequest.cmp_reversed_deadline_witness :
    TimeoutRequest.cmp ⟨1, 11⟩ ⟨5, 10⟩ = Ordering.gt :=
  TimeoutRequest.cmp_reversed_deadline.1 ⟨1, 11⟩ ⟨5, 10⟩ (by decide)

/-- C5: on equal deadlines the published comparison is the reverse of the
tokens' order, and it returns `eq` exactly when the tokens are equal: two
records sharing a deadline but carrying distinct tokens never compare as
equal. -/
theorem TimeoutRequest.cmp_equal_deadline_tie :
    ∀ a b : TimeoutRequest, a.deadline = b.deadline →
      TimeoutRequest.cmp a b = (compare a.token b.token).swap
      ∧ (TimeoutRequest.cmp a b = Ordering.eq ↔ a.token = b.token) := by
  intro a b h
  have h1 := TimeoutRequest.cmp_of_deadline_eq a b h
  refine ⟨h1, ?_⟩
  rw [h1]
  rcases Nat.lt_trichotomy a.token b.token with hc | hc | hc
  · rw [Nat.compare_eq_lt.mpr hc]
    constructor
    · intro h'
      exact absurd h' (by decide)
    · intro h'
      exact absurd h' (ne_of_lt hc)
  · rw [Nat.compare_eq_eq.mpr hc]
    exact ⟨fun _ => hc, fun _ => rfl⟩
  · rw [Nat.compare_eq_gt.mpr hc]
    constructor
    · intro h'
      exact absurd h' (by decide)
    · intro h'
      exact absurd h' (ne_of_gt hc)

/-- C5 witness: deadline 10 with tokens 1 and 2: the comparison is the
reversed token comparison and is not `eq`. -/
theorem TimeoutRequest.cmp_equal_deadline_tie_witness :
    TimeoutRequest.cmp ⟨10, 1⟩ ⟨10, 2⟩ = (compare (1 : Nat) (2 : Nat)).swap
    ∧ (TimeoutRequest.cmp ⟨10, 1⟩ ⟨10, 2⟩ = Ordering.eq ↔ (1 : Nat) = (2 : Nat)) :=
  TimeoutRequest.cmp_equal_deadline_tie ⟨10, 1⟩ ⟨10, 2⟩ rfl

/-- C10: the published comparison is total: `partial_cmp` always answers
`some` of `cmp` (no incomparable pair), `cmp` answers `eq` exactly on equal
records, and it is antisymmetric (`cmp b a` is the swap of `cmp a b`). -/
theorem TimeoutRequest.partial_cmp_total :
    ∀ a b : TimeoutRequest,
      TimeoutRequest.partial_cmp a b = some (TimeoutRequest.cmp a b)
      ∧ (TimeoutRequest.partial_cmp a b).isSome = true
      ∧ (TimeoutRequest.cmp a b = Ordering.eq ↔ a = b)
      ∧ TimeoutRequest.cmp b a = (TimeoutRequest.cmp a b).swap := by
  intro a b
  refine ⟨rfl, rfl, ?_, ?_⟩
  · rcases Nat.lt_trichotomy a.deadline b.deadline with hd | hd | hd
    · rw [TimeoutRequest.cmp_of_deadline_lt a b hd]
      constructor
      · intro h'
        exact absurd h' (by decide)
      · intro h'
        rw [h'] at hd
        exact absurd hd (lt_irrefl _)
    · rw [TimeoutRequest.cmp_of_deadline_eq a b hd]
      rcases Nat.lt_trichotomy a.token b.token with hc | hc | hc
      · rw [Nat.compare_eq_lt.mpr hc]
        constructor
        · intro h'
          exact absurd h' (by decide)
        · intro h'
          rw [h'] at hc
          exact absurd hc (lt_irrefl _)
      · rw [Nat.compare_eq_eq.mpr hc]
        have hab : a = b := by
          rcases a with ⟨ad, atk⟩
          rcases b with ⟨bd, btk⟩
          simp_all
        exact ⟨fun _ => hab, fun _ => rfl⟩
      · rw [Nat.compare_eq_gt.mpr hc]
        constructor
        · intro h'
          exact absurd h' (by decide)
        · intro h'
          rw [h'] at hc
          exact absurd hc (lt_irrefl _)
    · rw [TimeoutRequest.cmp_of_deadline_gt a b hd]
      constructor
      · intro h'
        exact absurd h' (by decide)
      · intro h'
        rw [h'] at hd
        exact absurd hd (lt_irrefl _)
  · rcases Nat.lt_trichotomy a.deadline b.deadline with hd | hd | hd
    · rw [TimeoutRequest.cmp_of_deadline_lt a b hd,
        TimeoutRequest.cmp_of_deadline_gt b a hd]
      rfl
    · rw [TimeoutRequest.cmp_of_deadline_eq a b hd,
        TimeoutRequest.cmp_of_deadline_eq b a hd.symm,
        ← Nat.compare_swap a.token b.token]
    · rw [TimeoutRequest.cmp_of_deadline_gt a b hd,
        TimeoutRequest.cmp_of_deadline_lt b a hd]
      rfl

/-- C10 witness: two concrete records are comparable, with `partial_cmp`
answering `some` of `cmp`. -/
theorem TimeoutRequest.partial_cmp_total_witness :
    TimeoutRequest.partial_cmp ⟨1, 2⟩ ⟨3, 4⟩ = some (TimeoutRequest.cmp ⟨1, 2⟩ ⟨3, 4⟩)
    ∧ (TimeoutRequest.partial_cmp ⟨1, 2⟩ ⟨3, 4⟩).isSome = true
    ∧ (TimeoutRequest.cmp ⟨1, 2⟩ ⟨3, 4⟩ = Ordering.eq ↔ (⟨1, 2⟩ : TimeoutRequest) = ⟨3, 4⟩)
    ∧ TimeoutRequest.cmp ⟨3, 4⟩ ⟨1, 2⟩ = (TimeoutRequest.cmp ⟨1, 2⟩ ⟨3, 4⟩).swap :=
  TimeoutRequest.partial_cmp_total ⟨1, 2⟩ ⟨3, 4⟩
